import Mathlib

/-!
Shallow embedding of the Red Lake Forest Watch change-detection pipeline
(`satellite_processor.py`) and proofs of the specification's claims.

Dates are calendar triples with day arithmetic done by iterated
predecessor (mirroring `datetime - timedelta(days=n)`); rasters are
functions from pixels to optional rational values (`None` = no-data);
the imagery gateway and the vectorization service are function
parameters, matching the external collaborators; the observable side
effects of a run (gateway calls, classification, vector extraction,
JSON export) are recorded in an explicit event list.
-/

set_option maxRecDepth 8000

namespace ForestWatch

/-- Calendar date, as produced by `datetime.strptime(.., %Y-%m-%d)`. -/
structure Date where
  y : Nat
  m : Nat
  d : Nat
deriving DecidableEq, Repr

/-- Gregorian leap-year test. -/
def isLeap (y : Nat) : Bool := (y % 4 == 0 && y % 100 != 0) || y % 400 == 0

/-- Number of days in month `m` of year `y`. -/
def daysInMonth (y m : Nat) : Nat :=
  if m == 2 then (if isLeap y then 29 else 28)
  else if m == 4 || m == 6 || m == 9 || m == 11 then 30
  else 31

/-- The previous calendar day (one step of `timedelta(days=1)` subtraction). -/
def prevDay (dt : Date) : Date :=
  if 1 < dt.d then ⟨dt.y, dt.m, dt.d - 1⟩
  else if 1 < dt.m then ⟨dt.y, dt.m - 1, daysInMonth dt.y (dt.m - 1)⟩
  else ⟨dt.y - 1, 12, 31⟩

/-- `dt - timedelta(days=n)`. -/
def subDays (n : Nat) (dt : Date) : Date := prevDay^[n] dt

/-- Strict chronological order on dates. -/
def dateLt (a b : Date) : Bool :=
  decide (a.y < b.y) ||
    (a.y == b.y && (decide (a.m < b.m) || (a.m == b.m && decide (a.d < b.d))))

/-- The current window `[current_date - 15d, current_date]`
(`satellite_processor.py`, lines 190-191). -/
def currentWindow (ref : Date) : Date × Date := (subDays 15 ref, ref)

/-- The baseline window
`[current_date - (lookback_days+15)d, current_date - lookback_days d]`
(`satellite_processor.py`, lines 193-194). -/
def baselineWindow (ref : Date) (lookback_days : Nat) : Date × Date :=
  (subDays (lookback_days + 15) ref, subDays lookback_days ref)

-- ==========================================================
-- Configuration constants (lines 32-51 of the source)
-- ==========================================================

/-- `NDVI_DECREASE_THRESHOLD = -0.15`. -/
def NDVI_DECREASE_THRESHOLD : ℚ := -15/100

/-- `NDVI_INCREASE_THRESHOLD = 0.10`. -/
def NDVI_INCREASE_THRESHOLD : ℚ := 10/100

/-- `MIN_AREA_ACRES = 2`. -/
def MIN_AREA_ACRES : ℚ := 2

/-- Square-meters-to-acres conversion factor `0.000247105` (lines 264, 295). -/
def SQM_TO_ACRES : ℚ := 247105/1000000000

-- ==========================================================
-- Geometry and boundary loading
-- ==========================================================

/-- An `ee.Geometry` value: either the rectangular bounding box or a
polygon taken from a boundary file. -/
inductive Geometry where
  | rectangle (west south east north : ℚ)
  | polygon (tag : Nat)
deriving DecidableEq, Repr

/-- The `RED_LAKE_BOUNDS` fallback rectangle (lines 32-37, 93-98). -/
def bboxGeometry : Geometry := Geometry.rectangle (-191/2) (471/10) (-94) (483/10)

/-- What the filesystem holds at a boundary path: no file, a file that
`json.load`/key lookup rejects, or a parseable feature collection. -/
inductive FileContent where
  | absent
  | invalid
  | geo (g : Geometry)

/-- `load_reservation_boundary` (lines 75-98).  The returned `Bool` is
true when the bounding-box fallback warning was printed.  A present but
unparseable file makes `json.load` (or the `features` lookup) raise,
which the embedding renders as `Except.error`. -/
def load_reservation_boundary (fs : String → FileContent) :
    Option String → Except String (Geometry × Bool)
  | some p =>
    match fs p with
    | FileContent.absent => Except.ok (bboxGeometry, true)
    | FileContent.invalid => Except.error "boundary file unparseable"
    | FileContent.geo g => Except.ok (g, false)
  | none => Except.ok (bboxGeometry, true)

-- ==========================================================
-- Rasters, NDVI and masks
-- ==========================================================

/-- Pixel coordinates. -/
abbrev Pixel := Nat × Nat

/-- A single-band raster; `none` is a no-data pixel. -/
abbrev Raster := Pixel → Option ℚ

/-- A Sentinel-2 composite with the two bands the pipeline reads. -/
structure Composite where
  b8 : Raster
  b4 : Raster

/-- `image.normalizedDifference([A, B])`: `(A - B) / (A + B)` per pixel,
no-data where the denominator is zero or an input is no-data. -/
def normalizedDifference (a b : Raster) : Raster := fun p =>
  match a p, b p with
  | some x, some y => if x + y = 0 then none else some ((x - y) / (x + y))
  | _, _ => none

/-- `calculate_ndvi` (lines 135-149): `normalizedDifference(['B8','B4'])`. -/
def calculate_ndvi (img : Composite) : Raster := normalizedDifference img.b8 img.b4

/-- Pixel-wise raster subtraction (`current_ndvi.subtract(baseline_ndvi)`). -/
def rasterSub (a b : Raster) : Raster := fun p =>
  match a p, b p with
  | some x, some y => some (x - y)
  | _, _ => none

/-- `raster.lt(t)`: boolean mask of pixels strictly below `t`;
no-data pixels are not in the mask. -/
def maskLt (r : Raster) (t : ℚ) : Pixel → Bool := fun p =>
  match r p with
  | some v => decide (v < t)
  | none => false

/-- `raster.gt(t)`: boolean mask of pixels strictly above `t`. -/
def maskGt (r : Raster) (t : ℚ) : Pixel → Bool := fun p =>
  match r p with
  | some v => decide (t < v)
  | none => false

-- ==========================================================
-- Features and alerts
-- ==========================================================

/-- A raw feature returned by `reduceToVectors(..).getInfo()`, together
with the collaborator-computed area (`geom.area().getInfo()`, in square
meters) and centroid coordinates (`[lng, lat]`). -/
structure RawFeature where
  area_sqm : ℚ
  centroid : ℚ × ℚ
deriving DecidableEq, Repr

/-- `area_acres = area_sqm * 0.000247105` (lines 264, 295). -/
def area_acres (f : RawFeature) : ℚ := f.area_sqm * SQM_TO_ACRES

/-- The minimum-area filter `area_acres >= MIN_AREA_ACRES` (lines 266, 297). -/
def keepFeature (f : RawFeature) : Bool := decide (MIN_AREA_ACRES ≤ area_acres f)

/-- An alert dictionary (lines 270-279 and 300-309). -/
structure Alert where
  id : String
  type : String
  severity : String
  lat : ℚ
  lng : ℚ
  area_acres : ℚ
  date : Date
  description : String
deriving DecidableEq, Repr

/-- Floor of a rational, via floor division of numerator by denominator. -/
def ratFloor (q : ℚ) : ℤ := q.num.fdiv q.den

/-- Round to the nearest integer, ties to even (Python `round`). -/
def rte (q : ℚ) : ℤ :=
  let f := ratFloor q
  let r := q - (f : ℚ)
  if r < 1/2 then f
  else if 1/2 < r then f + 1
  else if f % 2 = 0 then f else f + 1

/-- Python `round(q, 1)`. -/
def round1 (q : ℚ) : ℚ := (rte (q * 10) : ℚ) / 10

/-- Rational rendered as a string (used only inside descriptions). -/
def ratStr (q : ℚ) : String := toString q.num ++ "/" ++ toString q.den

/-- The damage alert built for the raw feature at zero-based index `i`
of the damage vector list (lines 270-279). -/
def mkDamageAlert (d : Date) (i : Nat) (f : RawFeature) : Alert :=
  { id := "damage_" ++ toString (i + 1)
    type := "vegetation_change"
    severity := if 20 < area_acres f then "high" else "medium"
    lat := f.centroid.2
    lng := f.centroid.1
    area_acres := round1 (area_acres f)
    date := d
    description := "Significant vegetation loss detected (" ++
      ratStr (round1 (area_acres f)) ++ " acres)" }

/-- The recovery alert built for the raw feature at zero-based index `i`
of the recovery vector list (lines 300-309). -/
def mkRecoveryAlert (d : Date) (i : Nat) (f : RawFeature) : Alert :=
  { id := "recovery_" ++ toString (i + 1)
    type := "recovery"
    severity := "positive"
    lat := f.centroid.2
    lng := f.centroid.1
    area_acres := round1 (area_acres f)
    date := d
    description := "Vegetation recovery observed (" ++
      ratStr (round1 (area_acres f)) ++ " acres)" }

/-- One `for i, feature in enumerate(features)` loop of
`extract_change_areas`: `i` counts every raw feature, and an alert is
appended to the accumulator only when the area filter passes. -/
def processGo (mk : Nat → RawFeature → Alert) :
    Nat → List RawFeature → List Alert → List Alert
  | _, [], acc => acc
  | i, f :: rest, acc =>
      processGo mk (i + 1) rest (acc ++ if keepFeature f then [mk i f] else [])

/-- The alerts produced from the damage vector list. -/
def damageAlerts (fs : List RawFeature) (d : Date) : List Alert :=
  processGo (mkDamageAlert d) 0 fs []

/-- The alerts produced from the recovery vector list. -/
def recoveryAlerts (fs : List RawFeature) (d : Date) : List Alert :=
  processGo (mkRecoveryAlert d) 0 fs []

/-- `extract_change_areas` (lines 235-311): the vectorization
collaborator `vec` is invoked once per mask; the damage loop fills the
alert list first and the recovery loop appends to it. -/
def extract_change_areas (vec : (Pixel → Bool) → List RawFeature)
    (damage_mask recovery_mask : Pixel → Bool) (d : Date) : List Alert :=
  processGo (mkRecoveryAlert d) 0 (vec recovery_mask)
    (processGo (mkDamageAlert d) 0 (vec damage_mask) [])

-- ==========================================================
-- Pipeline with an explicit event trace
-- ==========================================================

/-- Observable pipeline effects. -/
inductive Event where
  | gwCall (window : Date × Date)
  | classify
  | extractCall
  | exportCall (count : Nat)
deriving DecidableEq, Repr

/-- The record returned by `detect_changes` (lines 224-232). -/
structure ChangeResults where
  baseline_ndvi : Raster
  current_ndvi : Raster
  ndvi_change : Raster
  damage_mask : Pixel → Bool
  recovery_mask : Pixel → Bool
  baseline_date : Date
  current_date : Date

/-- `detect_changes` (lines 172-232): computes both windows, fetches
both composites through the gateway `gw` (both fetches happen before
the availability check), returns `none` if either is unavailable, and
otherwise differences the NDVI rasters and thresholds the difference
into the two masks. -/
def detect_changes (gw : Date × Date → Option Composite) (current_date : Date)
    (lookback_days : Nat) : Option ChangeResults × List Event :=
  let bw := baselineWindow current_date lookback_days
  let cw := currentWindow current_date
  let calls := [Event.gwCall bw, Event.gwCall cw]
  match gw bw, gw cw with
  | some baseline_image, some current_image =>
      let baseline_ndvi := calculate_ndvi baseline_image
      let current_ndvi := calculate_ndvi current_image
      let ndvi_change := rasterSub current_ndvi baseline_ndvi
      (some { baseline_ndvi := baseline_ndvi
              current_ndvi := current_ndvi
              ndvi_change := ndvi_change
              damage_mask := maskLt ndvi_change NDVI_DECREASE_THRESHOLD
              recovery_mask := maskGt ndvi_change NDVI_INCREASE_THRESHOLD
              baseline_date := bw.2
              current_date := cw.2 },
       calls ++ [Event.classify])
  | _, _ => (none, calls)

/-- `run_analysis` (lines 357-414), from change detection onward: when
`detect_changes` returns `None` the run stops with no alerts and no
export; otherwise the change areas are extracted and the alert list is
exported. -/
def run_analysis (gw : Date × Date → Option Composite)
    (vec : (Pixel → Bool) → List RawFeature) (current_date : Date) :
    Option (List Alert) × List Event :=
  match detect_changes gw current_date 30 with
  | (none, ev) => (none, ev)
  | (some ch, ev) =>
      let alerts := extract_change_areas vec ch.damage_mask ch.recovery_mask ch.current_date
      (some alerts, ev ++ [Event.extractCall, Event.exportCall alerts.length])

-- ==========================================================
-- Export and top-alert view
-- ==========================================================

/-- The JSON document written by `export_alerts_json` (lines 318-329). -/
structure AlertsDocument where
  generated : String
  count : Nat
  alerts : List Alert
deriving DecidableEq, Repr

/-- `export_alerts_json` (lines 318-329). -/
def export_alerts_json (now : String) (alerts : List Alert) : AlertsDocument :=
  { generated := now, count := alerts.length, alerts := alerts }

/-- The comparison used by `sorted(alerts, key=.. area_acres, reverse=True)`:
`a` may come before `b` when `a`'s area is at least `b`'s. -/
def areaGe (a b : Alert) : Prop := b.area_acres ≤ a.area_acres

instance : DecidableRel areaGe :=
  fun a b => inferInstanceAs (Decidable (b.area_acres ≤ a.area_acres))

instance : IsTotal Alert areaGe := ⟨fun a b => le_total b.area_acres a.area_acres⟩

instance : IsTrans Alert areaGe := ⟨fun _ _ _ h1 h2 => le_trans h2 h1⟩

/-- The "Top alerts" summary view (lines 410-412): a stable descending
sort by `area_acres`, truncated to five entries. -/
def topAlertsView (alerts : List Alert) : List Alert :=
  (List.insertionSort areaGe alerts).take 5

-- ==========================================================
-- Concrete fixtures used by counterexamples and witnesses
-- ==========================================================

/-- A reference date used in concrete instances. -/
def d0 : Date := ⟨2024, 6, 15⟩

/-- A raw feature of 4000 square meters, about 0.99 acres. -/
def featSmall : RawFeature := ⟨4000, (0, 0)⟩

/-- A raw feature of 100000 square meters, about 24.7 acres. -/
def featBig : RawFeature := ⟨100000, (1, 2)⟩

/-- A raw feature of exactly 1.9 acres. -/
def feat19 : RawFeature := ⟨(19/10) / SQM_TO_ACRES, (0, 0)⟩

/-- A raw feature of exactly 2.0 acres. -/
def feat20 : RawFeature := ⟨2 / SQM_TO_ACRES, (0, 0)⟩

/-- A raw feature of exactly 20.0 acres. -/
def feat200 : RawFeature := ⟨20 / SQM_TO_ACRES, (0, 0)⟩

/-- A raw feature of exactly 20.01 acres. -/
def feat2001 : RawFeature := ⟨(2001/100) / SQM_TO_ACRES, (0, 0)⟩

/-- A composite whose NDVI is 0.6 everywhere. -/
def compStub : Composite := ⟨fun _ => some (8/10), fun _ => some (2/10)⟩

/-- A gateway that always has imagery. -/
def gwStub : Date × Date → Option Composite := fun _ => some compStub

/-- A gateway that never has imagery. -/
def gwNone : Date × Date → Option Composite := fun _ => none

/-- A vectorizer that returns no features. -/
def vecEmpty : (Pixel → Bool) → List RawFeature := fun _ => []

/-- A raster that is zero everywhere. -/
def zeroRaster : Raster := fun _ => some 0

/-- A concrete alert with area 5 acres. -/
def alertA : Alert := ⟨"a", "vegetation_change", "high", 0, 0, 5, d0, "x"⟩

/-- A second concrete alert, also with area 5 acres. -/
def alertB : Alert := ⟨"b", "recovery", "positive", 0, 0, 5, d0, "y"⟩

-- ==========================================================
-- Helper lemmas about the extraction loop
-- ==========================================================

/-- Closed form of the extraction loop: the accumulator is extended by
one alert per surviving feature, indexed by raw position. -/
lemma processGo_eq (mk : Nat → RawFeature → Alert) :
    ∀ (fs : List RawFeature) (i : Nat) (acc : List Alert),
    processGo mk i fs acc
      = acc ++ (List.enumFrom i fs).filterMap
          (fun p => if keepFeature p.2 then some (mk p.1 p.2) else none) := by
  intro fs
  induction fs with
  | nil => intro i acc; simp [processGo, List.enumFrom]
  | cons f rest ih =>
      intro i acc
      simp only [processGo]
      rw [ih]
      by_cases h : keepFeature f <;>
        simp [h, List.enumFrom, List.filterMap_cons, List.append_assoc]

/-- The extraction loop appends to its accumulator. -/
lemma processGo_append (mk : Nat → RawFeature → Alert) (fs : List RawFeature)
    (i : Nat) (acc : List Alert) :
    processGo mk i fs acc = acc ++ processGo mk i fs [] := by
  rw [processGo_eq, processGo_eq]
  simp

/-- Filtering with an `if .. then some .. else none` is a filter
followed by a map. -/
lemma filterMap_keep {α : Type} (g : Nat × RawFeature → α)
    (l : List (Nat × RawFeature)) :
    l.filterMap (fun p => if keepFeature p.2 then some (g p) else none)
      = (l.filter fun p => keepFeature p.2).map g := by
  induction l with
  | nil => rfl
  | cons p rest ih =>
      by_cases h : keepFeature p.2 <;>
        simp [List.filterMap_cons, List.filter_cons, h, ih]

/-- Closed form of the damage loop. -/
lemma damageAlerts_eq (fs : List RawFeature) (d : Date) :
    damageAlerts fs d
      = ((List.enumFrom 0 fs).filter fun p => keepFeature p.2).map
          (fun p => mkDamageAlert d p.1 p.2) := by
  rw [damageAlerts, processGo_eq, filterMap_keep]
  simp

/-- Closed form of the recovery loop. -/
lemma recoveryAlerts_eq (fs : List RawFeature) (d : Date) :
    recoveryAlerts fs d
      = ((List.enumFrom 0 fs).filter fun p => keepFeature p.2).map
          (fun p => mkRecoveryAlert d p.1 p.2) := by
  rw [recoveryAlerts, processGo_eq, filterMap_keep]
  simp

/-- Mapping a function of the feature only, over the enumerated filtered
list, forgets the indices. -/
lemma filter_enumFrom_map_snd {α : Type} (q : RawFeature → Bool)
    (g : RawFeature → α) :
    ∀ (fs : List RawFeature) (i : Nat),
    (((List.enumFrom i fs).filter fun p => q p.2).map fun p => g p.2)
      = (fs.filter q).map g := by
  intro fs
  induction fs with
  | nil => intro i; rfl
  | cons f rest ih =>
      intro i
      by_cases h : q f <;> simp [List.enumFrom, List.filter_cons, h, ih]

-- ==========================================================
-- Claims
-- ==========================================================

/-- Claim C1: `detect_changes` queries the gateway on the baseline
window `[ref - (lookback+15)d, ref - lookback d]` and then the current
window `[ref - 15d, ref]`; for `lookback_days = 30` and reference date
2024-06-15 these windows are `[2024-05-01, 2024-05-16]` and
`[2024-05-31, 2024-06-15]`. -/
theorem window_arithmetic :
    (∀ (gw : Date × Date → Option Composite) (ref : Date) (lb : Nat),
        (detect_changes gw ref lb).2.take 2
          = [Event.gwCall (subDays (lb + 15) ref, subDays lb ref),
             Event.gwCall (subDays 15 ref, ref)])
    ∧ baselineWindow ⟨2024, 6, 15⟩ 30 = (⟨2024, 5, 1⟩, ⟨2024, 5, 16⟩)
    ∧ currentWindow ⟨2024, 6, 15⟩ = (⟨2024, 5, 31⟩, ⟨2024, 6, 15⟩) := by
  refine ⟨fun gw ref lb => ?_, by decide, by decide⟩
  simp only [detect_changes]
  rcases hb : gw (baselineWindow ref lb) with _ | b <;>
    rcases hc : gw (currentWindow ref) with _ | c <;>
      simp [hb, hc, baselineWindow, currentWindow]

/-- Claim C2, counterexample: with a 4000 square-meter feature (below
the 2-acre filter) followed by a 100000 square-meter feature, the only
surviving damage alert carries id `damage_2`, not `damage_1`: surviving
features are not sequentially renumbered. -/
theorem feature_id_gap_counterexample :
    (damageAlerts [featSmall, featBig] d0).map Alert.id = ["damage_2"]
    ∧ (damageAlerts [featSmall, featBig] d0).map Alert.id ≠ ["damage_1"] := by
  have hsmall : keepFeature featSmall = false := by
    norm_num [keepFeature, featSmall, area_acres, SQM_TO_ACRES, MIN_AREA_ACRES,
      decide_eq_false_iff_not]
  have hbig : keepFeature featBig = true := by
    norm_num [keepFeature, featBig, area_acres, SQM_TO_ACRES, MIN_AREA_ACRES,
      decide_eq_true_eq]
  have hlist : damageAlerts [featSmall, featBig] d0 = [mkDamageAlert d0 1 featBig] := by
    simp [damageAlerts, processGo, hsmall, hbig]
  constructor
  · rw [hlist]; rfl
  · rw [hlist]; decide

/-- Claim C2 (amended): each surviving feature is assigned the id
`kind_(i+1)` where `i` is its zero-based position in the raw list
returned by the vectorization service, in order; dropped features still
advance the counter, so ids can have gaps. -/
theorem feature_id_by_raw_index : ∀ (fs : List RawFeature) (d : Date),
    (damageAlerts fs d).map Alert.id
      = ((List.enumFrom 0 fs).filter fun p => keepFeature p.2).map
          (fun p => "damage_" ++ toString (p.1 + 1))
    ∧ (recoveryAlerts fs d).map Alert.id
      = ((List.enumFrom 0 fs).filter fun p => keepFeature p.2).map
          (fun p => "recovery_" ++ toString (p.1 + 1)) := by
  intro fs d
  constructor
  · rw [damageAlerts_eq, List.map_map]; rfl
  · rw [recoveryAlerts_eq, List.map_map]; rfl

/-- Claim C3: at the failing input `lookback_days = 10` (reference date
2024-06-15), `detect_changes` performs no validation: it returns a
normal result, the gateway is called on both windows, and the windows
overlap (the current window starts 2024-05-31, before the baseline
window ends 2024-06-05). -/
theorem lookback_not_validated :
    (detect_changes gwStub ⟨2024, 6, 15⟩ 10).1.isSome = true
    ∧ (detect_changes gwStub ⟨2024, 6, 15⟩ 10).2
        = [Event.gwCall (baselineWindow ⟨2024, 6, 15⟩ 10),
           Event.gwCall (currentWindow ⟨2024, 6, 15⟩), Event.classify]
    ∧ baselineWindow ⟨2024, 6, 15⟩ 10 = (⟨2024, 5, 21⟩, ⟨2024, 6, 5⟩)
    ∧ dateLt (currentWindow ⟨2024, 6, 15⟩).1 (baselineWindow ⟨2024, 6, 15⟩ 10).2
        = true := by
  refine ⟨rfl, by decide, by decide, by decide⟩

/-- Claim C4, counterexample: a boundary file that exists but cannot be
parsed makes `load_reservation_boundary` raise (no fallback), refuting
the claim that unparseable boundary files never fail the run. -/
theorem boundary_unparseable_fails :
    load_reservation_boundary (fun _ => FileContent.invalid)
        (some "red_lake_boundary.geojson")
      = Except.error "boundary file unparseable" := rfl

/-- Claim C4 (amended): a missing boundary file (or no path at all)
falls back to the bounding box with a warning; a parseable file is used
as-is; but an existing unparseable file raises and fails the run. -/
theorem boundary_loading_behavior : ∀ (fs : String → FileContent) (p : String),
    (fs p = FileContent.absent →
      load_reservation_boundary fs (some p) = Except.ok (bboxGeometry, true))
    ∧ load_reservation_boundary fs none = Except.ok (bboxGeometry, true)
    ∧ (∀ g, fs p = FileContent.geo g →
        load_reservation_boundary fs (some p) = Except.ok (g, false))
    ∧ (fs p = FileContent.invalid →
        load_reservation_boundary fs (some p)
          = Except.error "boundary file unparseable") := by
  intro fs p
  refine ⟨fun h => ?_, rfl, fun g h => ?_, fun h => ?_⟩ <;>
    simp [load_reservation_boundary, h]

/-- Witness for the amended claim C4, at a concrete absent file. -/
theorem boundary_loading_behavior_witness :
    load_reservation_boundary (fun _ => FileContent.absent)
        (some "red_lake_boundary.geojson")
      = Except.ok (bboxGeometry, true) :=
  (boundary_loading_behavior (fun _ => FileContent.absent)
    "red_lake_boundary.geojson").1 rfl

/-- Claim C5: for every change raster and thresholds with
`decreaseThreshold < 0 < increaseThreshold`, the damage mask
(`change < decreaseThreshold`) and the recovery mask
(`change > increaseThreshold`) are disjoint at every pixel. -/
theorem masks_disjoint : ∀ (baseline current : Raster) (dThr iThr : ℚ) (p : Pixel),
    dThr < 0 → 0 < iThr →
    ¬(maskLt (rasterSub current baseline) dThr p = true
      ∧ maskGt (rasterSub current baseline) iThr p = true) := by
  intro b c dThr iThr p hd hi h
  obtain ⟨h1, h2⟩ := h
  cases hc : rasterSub c b p with
  | none => simp [maskLt, hc] at h1
  | some v =>
      simp [maskLt, maskGt, hc] at h1 h2
      linarith

/-- Witness for claim C5 at the default thresholds and a zero raster. -/
theorem masks_disjoint_witness :
    ((-15/100 : ℚ) < 0) ∧ ((0 : ℚ) < 10/100)
    ∧ ¬(maskLt (rasterSub zeroRaster zeroRaster) (-15/100) (0, 0) = true
        ∧ maskGt (rasterSub zeroRaster zeroRaster) (10/100) (0, 0) = true) :=
  ⟨by norm_num, by norm_num,
   masks_disjoint zeroRaster zeroRaster (-15/100) (10/100) (0, 0)
     (by norm_num) (by norm_num)⟩

/-- Claim C6: a feature is kept exactly when its area in square meters
times 0.000247105 is at least `MIN_AREA_ACRES = 2`; a 1.9-acre feature
is dropped and a 2.0-acre feature is kept. -/
theorem area_filter_inclusive :
    (∀ f : RawFeature, keepFeature f = true ↔
        MIN_AREA_ACRES ≤ f.area_sqm * SQM_TO_ACRES)
    ∧ area_acres feat19 = 19/10 ∧ keepFeature feat19 = false
    ∧ area_acres feat20 = 2 ∧ keepFeature feat20 = true := by
  refine ⟨fun f => ?_, ?_, ?_, ?_, ?_⟩
  · simp [keepFeature, area_acres]
  · norm_num [area_acres, feat19, SQM_TO_ACRES]
  · norm_num [keepFeature, area_acres, feat19, SQM_TO_ACRES, MIN_AREA_ACRES,
      decide_eq_false_iff_not]
  · norm_num [area_acres, feat20, SQM_TO_ACRES]
  · norm_num [keepFeature, area_acres, feat20, SQM_TO_ACRES, MIN_AREA_ACRES,
      decide_eq_true_eq]

/-- Claim C7: surviving damage features get severity `high` exactly when
their (unrounded) area strictly exceeds 20 acres and `medium` otherwise
(20.0 acres gives `medium`, 20.01 gives `high`); surviving recovery
features always get severity `positive`. -/
theorem severity_classification :
    (∀ (fs : List RawFeature) (d : Date),
        (damageAlerts fs d).map Alert.severity
          = (fs.filter keepFeature).map
              (fun f => if 20 < area_acres f then "high" else "medium"))
    ∧ (∀ (fs : List RawFeature) (d : Date),
        (recoveryAlerts fs d).map Alert.severity
          = (fs.filter keepFeature).map (fun _ => "positive"))
    ∧ (mkDamageAlert d0 0 feat200).severity = "medium"
    ∧ (mkDamageAlert d0 0 feat2001).severity = "high" := by
  refine ⟨fun fs d => ?_, fun fs d => ?_, ?_, ?_⟩
  · rw [damageAlerts_eq, List.map_map]
    exact filter_enumFrom_map_snd keepFeature
      (fun f => if 20 < area_acres f then "high" else "medium") fs 0
  · rw [recoveryAlerts_eq, List.map_map]
    exact filter_enumFrom_map_snd keepFeature (fun _ => ("positive" : String)) fs 0
  · have h : ¬((20 : ℚ) < area_acres feat200) := by
      norm_num [area_acres, feat200, SQM_TO_ACRES]
    simp [mkDamageAlert, h]
  · have h : (20 : ℚ) < area_acres feat2001 := by
      norm_num [area_acres, feat2001, SQM_TO_ACRES]
    simp [mkDamageAlert, h]

/-- Claim C8: if the gateway has no data for the baseline window or the
current window, the run produces no alerts, and the event trace shows
no classification, no vector extraction and no export. -/
theorem data_unavailable_aborts :
    ∀ (gw : Date × Date → Option Composite)
      (vec : (Pixel → Bool) → List RawFeature) (ref : Date),
    gw (baselineWindow ref 30) = none ∨ gw (currentWindow ref) = none →
    (run_analysis gw vec ref).1 = none
    ∧ Event.classify ∉ (run_analysis gw vec ref).2
    ∧ Event.extractCall ∉ (run_analysis gw vec ref).2
    ∧ ∀ n, Event.exportCall n ∉ (run_analysis gw vec ref).2 := by
  intro gw vec ref h
  have hd : detect_changes gw ref 30
      = (none, [Event.gwCall (baselineWindow ref 30),
                Event.gwCall (currentWindow ref)]) := by
    simp only [detect_changes]
    rcases h with h | h
    · rcases hc : gw (currentWindow ref) with _ | c <;> simp [h, hc]
    · rcases hb : gw (baselineWindow ref 30) with _ | b <;> simp [h, hb]
  refine ⟨?_, ?_, ?_, fun n => ?_⟩ <;> simp [run_analysis, hd]

/-- Witness for claim C8: a gateway with no imagery at all. -/
theorem data_unavailable_aborts_witness :
    (run_analysis gwNone vecEmpty ⟨2024, 6, 15⟩).1 = none
    ∧ Event.exportCall 0 ∉ (run_analysis gwNone vecEmpty ⟨2024, 6, 15⟩).2 :=
  ⟨(data_unavailable_aborts gwNone vecEmpty ⟨2024, 6, 15⟩ (Or.inl rfl)).1,
   (data_unavailable_aborts gwNone vecEmpty ⟨2024, 6, 15⟩ (Or.inl rfl)).2.2.2 0⟩

/-- Claim C9: `extract_change_areas` returns all damage alerts followed
by all recovery alerts; the top-alert summary view is sorted by
`area_acres` descending, and the sort is stable (any pair already in
weakly descending order, ties included, keeps its relative order). -/
theorem alert_order_and_top_view :
    (∀ (vec : (Pixel → Bool) → List RawFeature) (dm rm : Pixel → Bool) (d : Date),
        extract_change_areas vec dm rm d
          = damageAlerts (vec dm) d ++ recoveryAlerts (vec rm) d)
    ∧ (∀ alerts : List Alert, (topAlertsView alerts).Sorted areaGe)
    ∧ (∀ (alerts : List Alert) (a b : Alert),
        List.Sublist [a, b] alerts → areaGe a b →
        List.Sublist [a, b] (List.insertionSort areaGe alerts)) := by
  refine ⟨fun vec dm rm d => ?_, fun alerts => ?_, fun alerts a b h1 h2 => ?_⟩
  · rw [extract_change_areas, damageAlerts, recoveryAlerts, processGo_append]
  · exact List.Pairwise.sublist (List.take_sublist 5 _)
      (List.sorted_insertionSort areaGe alerts)
  · exact List.pair_sublist_insertionSort h2 h1

/-- Witness for claim C9: a tie on area (two alerts of 5 acres) keeps
its insertion order through the sort. -/
theorem alert_order_and_top_view_witness :
    List.Sublist [alertA, alertB] (List.insertionSort areaGe [alertA, alertB]) :=
  alert_order_and_top_view.2.2 [alertA, alertB] alertA alertB
    (List.Sublist.refl [alertA, alertB]) (by norm_num [areaGe, alertA, alertB])

/-- Claim C10: the exported document's `count` equals the length of its
`alerts` array, and the `alerts` array is the input list unchanged. -/
theorem export_count_matches : ∀ (now : String) (alerts : List Alert),
    (export_alerts_json now alerts).count
        = (export_alerts_json now alerts).alerts.length
    ∧ (export_alerts_json now alerts).alerts = alerts :=
  fun _ _ => ⟨rfl, rfl⟩

end ForestWatch
